import Mathlib

/-!
Shallow embedding of the talos configuration model and validation engine.

Source files embedded:
* `pkg/config/types/v1alpha1/cluster_config.go` — the `ClusterConfig`
  document type and its accessor methods (the Accessor Facade).
* `pkg/machinery/config/types/v1alpha1` — the `Validate` entry point; only
  its test file is available, so the validator itself is modelled from the
  specification (each such definition is marked `Modelled from the spec:`).

Conventions:
* Go pointers become `Option`; a Go nil-pointer dereference (a panic) is
  modelled by an accessor returning `none`.
* Go slices become `List`, Go `map[string]string` becomes
  `List (String × String)` (the maps are inert data here).
* Go `int` becomes `Int`.
-/

namespace Talos

/-- Subset of the fields of Go `net/url.URL` carried by an `Endpoint`.
The URL payload is inert for the embedded accessors. -/
structure URL where
  Scheme : String
  Host : String
  Path : String
  RawQuery : String
  Fragment : String
deriving DecidableEq

/-- Go `Endpoint` wraps an embedded `*url.URL` (a possibly-nil pointer). -/
structure Endpoint where
  url : Option URL
deriving DecidableEq

/-- Modelled from the spec: `x509.PEMEncodedCertificateAndKey` (the x509
package is outside the provided sources); a certificate+key pair whose byte
content is inert here, modelled as strings. -/
structure PEMEncodedCertificateAndKey where
  Crt : String
  Key : String
deriving DecidableEq

/-- Go `ControlPlaneConfig` from `cluster_config.go`. -/
structure ControlPlaneConfig where
  Version : String
  Endpoint : Option Endpoint
  LocalAPIServerPort : Int
deriving DecidableEq

/-- Go `APIServerConfig` from `cluster_config.go`. -/
structure APIServerConfig where
  Image : String
  ExtraArgs : List (String × String)
  CertSANs : List String
deriving DecidableEq

/-- Go `ControllerManagerConfig` from `cluster_config.go`. -/
structure ControllerManagerConfig where
  Image : String
  ExtraArgs : List (String × String)
deriving DecidableEq

/-- Go `SchedulerConfig` from `cluster_config.go`. -/
structure SchedulerConfig where
  Image : String
  ExtraArgs : List (String × String)
deriving DecidableEq

/-- Go `EtcdConfig` from `cluster_config.go`. -/
structure EtcdConfig where
  ContainerImage : String
  RootCA : Option PEMEncodedCertificateAndKey
deriving DecidableEq

/-- Go `ClusterNetworkConfig` from `cluster_config.go`. -/
structure ClusterNetworkConfig where
  CNI : String
  DNSDomain : String
  PodSubnet : List String
  ServiceSubnet : List String
deriving DecidableEq

/-- Go `ClusterConfig` from `cluster_config.go`: the cluster-wide config
values (aggregate root of the accessor facade). -/
structure ClusterConfig where
  ControlPlane : Option ControlPlaneConfig
  ClusterName : String
  ClusterNetwork : Option ClusterNetworkConfig
  BootstrapToken : String
  CertificateKey : String
  ClusterAESCBCEncryptionSecret : String
  ClusterCA : Option PEMEncodedCertificateAndKey
  APIServer : Option APIServerConfig
  ControllerManager : Option ControllerManagerConfig
  Scheduler : Option SchedulerConfig
  EtcdConfig : Option EtcdConfig
deriving DecidableEq

/-- Modelled from the spec: the fixed system default CNI plugin
(`constants.DefaultCNI`, outside the provided sources). -/
def DefaultCNI : String := "flannel"

/-- Modelled from the spec: the fixed system default pod CIDR
(`constants.DefaultPodCIDR`, outside the provided sources). -/
def DefaultPodCIDR : String := "10.244.0.0/16"

/-- Modelled from the spec: the fixed system default service CIDR
(`constants.DefaultServiceCIDR`, outside the provided sources). -/
def DefaultServiceCIDR : String := "10.96.0.0/12"

/-- Go `Version` returns `c.ControlPlane.Version`; Go dereferences the
`ControlPlane` pointer, so a nil `ControlPlane` panics — modelled as
`none`. -/
def ClusterConfig.Version (c : ClusterConfig) : Option String :=
  match c.ControlPlane with
  | none => none
  | some cp => some cp.Version

/-- Go `Endpoint` returns `c.ControlPlane.Endpoint.URL`; a nil `ControlPlane`
or nil `Endpoint` pointer panics — modelled as `none`.  The returned value
is itself a possibly-nil `*url.URL`. -/
def ClusterConfig.Endpoint (c : ClusterConfig) : Option (Option URL) :=
  match c.ControlPlane with
  | none => none
  | some cp =>
    match cp.Endpoint with
    | none => none
    | some e => some e.url

/-- Go `LocalAPIServerPort` returns 6443 when the field is zero, the field
otherwise; a nil `ControlPlane` panics — modelled as `none`. -/
def ClusterConfig.LocalAPIServerPort (c : ClusterConfig) : Option Int :=
  match c.ControlPlane with
  | none => none
  | some cp =>
    if cp.LocalAPIServerPort = 0 then some 6443
    else some cp.LocalAPIServerPort

/-- Go `CertSANs` returns `c.APIServer.CertSANs`; a nil `APIServer` panics —
modelled as `none`. -/
def ClusterConfig.CertSANs (c : ClusterConfig) : Option (List String) :=
  match c.APIServer with
  | none => none
  | some api => some api.CertSANs

/-- Go `SetCertSANs` allocates an empty `APIServerConfig` when `APIServer` is
nil, then appends `sans` to `CertSANs`.  The Go method mutates through the
receiver pointer; modelled as returning the updated document. -/
def ClusterConfig.SetCertSANs (c : ClusterConfig) (sans : List String) :
    ClusterConfig :=
  let c' :=
    match c.APIServer with
    | none => { c with APIServer := some ⟨"", [], []⟩ }
    | some _ => c
  match c'.APIServer with
  | none => c'
  | some api =>
    { c' with APIServer := some { api with CertSANs := api.CertSANs ++ sans } }

/-- Go `CA` returns the `ClusterCA` pointer verbatim (no dereference, total). -/
def ClusterConfig.CA (c : ClusterConfig) : Option PEMEncodedCertificateAndKey :=
  c.ClusterCA

/-- Go `AESCBCEncryptionSecret` returns the secret verbatim (total). -/
def ClusterConfig.AESCBCEncryptionSecret (c : ClusterConfig) : String :=
  c.ClusterAESCBCEncryptionSecret

/-- Embeds Go `strings.Split` for a single-character separator: splits the
character list around every occurrence of `sep`, `acc` holding the current
chunk reversed. -/
def splitCharAux (sep : Char) : List Char → List Char → List String
  | [], acc => [String.mk acc.reverse]
  | c :: rest, acc =>
    if c = sep then String.mk acc.reverse :: splitCharAux sep rest []
    else splitCharAux sep rest (c :: acc)

/-- Go `strings.Split(s, sep)` specialised to the single-character
separators used by the source (`"."`):  `stringsSplit "a.b.c" '.' =
["a", "b", "c"]`, `stringsSplit "" '.' = [""]`. -/
def stringsSplit (s : String) (sep : Char) : List String :=
  splitCharAux sep s.data []

/-- Go `ID` returns the first of the two `"."`-separated parts of
`BootstrapToken`, or `""` when the split does not have exactly two parts. -/
def ClusterConfig.ID (c : ClusterConfig) : String :=
  let parts := stringsSplit c.BootstrapToken '.'
  if parts.length ≠ 2 then ""
  else parts.headD ""

/-- Go `Secret` returns the second of the two `"."`-separated parts of
`BootstrapToken`, or `""` when the split does not have exactly two parts. -/
def ClusterConfig.Secret (c : ClusterConfig) : String :=
  let parts := stringsSplit c.BootstrapToken '.'
  if parts.length ≠ 2 then ""
  else parts.getD 1 ""

/-- Go `CNI` falls back to the system default when the network config is nil
or its `CNI` field is empty (the Go `switch` with `fallthrough`, total). -/
def ClusterConfig.CNI (c : ClusterConfig) : String :=
  match c.ClusterNetwork with
  | none => DefaultCNI
  | some n => if n.CNI = "" then DefaultCNI else n.CNI

/-- Go `PodCIDR` returns `PodSubnet[0]`, falling back to the system default
when the network config is nil or the sequence is empty (total). -/
def ClusterConfig.PodCIDR (c : ClusterConfig) : String :=
  match c.ClusterNetwork with
  | none => DefaultPodCIDR
  | some n =>
    if n.PodSubnet.length = 0 then DefaultPodCIDR
    else n.PodSubnet.headD ""

/-- Go `ServiceCIDR` returns `ServiceSubnet[0]`, falling back to the system
default when the network config is nil or the sequence is empty (total). -/
def ClusterConfig.ServiceCIDR (c : ClusterConfig) : String :=
  match c.ClusterNetwork with
  | none => DefaultServiceCIDR
  | some n =>
    if n.ServiceSubnet.length = 0 then DefaultServiceCIDR
    else n.ServiceSubnet.headD ""

/-- Go `Image` on `EtcdConfig` returns `ContainerImage` verbatim (total). -/
def EtcdConfig.Image (e : EtcdConfig) : String :=
  e.ContainerImage

/-- Go `CA` on `EtcdConfig` returns the `RootCA` pointer verbatim (total). -/
def EtcdConfig.CA (e : EtcdConfig) : Option PEMEncodedCertificateAndKey :=
  e.RootCA

/-- A concrete all-absent document, used as the input of witnesses and
counterexamples. -/
def emptyClusterConfig : ClusterConfig :=
  ⟨none, "", none, "", "", "", none, none, none, none, none⟩

end Talos

namespace Machinery

/-- Go `InstallConfig` as constructed in `v1alpha1_validation_test.go`
(field `InstallDisk`). -/
structure InstallConfig where
  InstallDisk : String
deriving DecidableEq

/-- Go `MachineConfig` as constructed in `v1alpha1_validation_test.go`
(fields `MachineType`, `MachineInstall`). -/
structure MachineConfig where
  MachineType : String
  MachineInstall : Option InstallConfig
deriving DecidableEq

/-- Go `ExternalCloudProviderConfig` as constructed in
`v1alpha1_validation_test.go` (fields `ExternalEnabled`,
`ExternalManifests`). -/
structure ExternalCloudProviderConfig where
  ExternalEnabled : Bool
  ExternalManifests : List String
deriving DecidableEq

/-- The machinery-package `ClusterConfig` as constructed in
`v1alpha1_validation_test.go`: only the fields the validator consults are
carried. -/
structure ClusterConfig where
  ControlPlane : Option Talos.ControlPlaneConfig
  ExternalCloudProviderConfig : Option Machinery.ExternalCloudProviderConfig
deriving DecidableEq

/-- Top-level `Config` as constructed in `v1alpha1_validation_test.go`. -/
structure Config where
  ConfigVersion : String
  MachineConfig : Option Machinery.MachineConfig
  ClusterConfig : Option Machinery.ClusterConfig
deriving DecidableEq

/-- The externally supplied runtime mode: `RequiresInstall()` and
`String()` (the test's `runtimeMode`). -/
structure RuntimeMode where
  requiresInstall : Bool
  toString : String
deriving DecidableEq

/-- Validation options: `{local, strict}`. -/
structure ValidationOptions where
  Local : Bool
  Strict : Bool
deriving DecidableEq

def machineRequiredMsg : String := "machine instructions are required"

def machineTypeWarning : String := "machine type is empty"

def installRequiredMsg (mode : RuntimeMode) : String :=
  "install instructions are required in \"" ++ mode.toString ++ "\" mode"

def ecpDisabledMsg : String :=
  "external cloud provider is disabled, but manifests are provided"

def invalidManifestMsg (u : String) : String :=
  "invalid external cloud provider manifest url \"" ++ u ++
    "\": hostname must not be blank"

/-- One `"\t* <message>\n"` line per collected message. -/
def renderLines : List String → String
  | [] => ""
  | m :: rest => "\t* " ++ m ++ "\n" ++ renderLines rest

/-- Modelled from the spec: the rendered form of the aggregated error
(§4.3 Aggregation; the exact strings appear in the test expectations):
`"N error(s) occurred:\n\t* m1\n...\n"`, singular for one message. -/
def renderAggregate (msgs : List String) : String :=
  if msgs.length = 1 then
    "1 error occurred:\n" ++ renderLines msgs ++ "\n"
  else
    toString msgs.length ++ " errors occurred:\n" ++ renderLines msgs ++ "\n"

/-- Modelled from the spec: zero collected messages yield no error,
otherwise one aggregated error (§4.3, §7). -/
def formatAggregate (msgs : List String) : Option String :=
  match msgs with
  | [] => none
  | _ => some (renderAggregate msgs)

/-- Modelled from the spec: a manifest URL is valid when it is an absolute
URL (`scheme://...`) with a non-blank hostname (§4.3 rule 4; the URL
checking itself lives outside the provided sources).  Splitting on `/`,
an absolute URL reads `scheme:`, `""`, `host`, ... . -/
def isValidManifestURL (s : String) : Bool :=
  match Talos.stringsSplit s '/' with
  | schemePart :: "" :: host :: _ =>
    (schemePart.data.getLast? == some ':') &&
      (2 ≤ schemePart.data.length) && (host != "")
  | _ => false

/-- Modelled from the spec: manifest-URL validation stops at the first
invalid manifest and reports it (§4.3 rule 4, §9 open question). -/
def firstInvalidManifest : List String → List String
  | [] => []
  | u :: rest =>
    if isValidManifestURL u then firstInvalidManifest rest
    else [invalidManifestMsg u]

/-- Modelled from the spec: external cloud provider consistency (§4.3 rule
4): disabled (or absent) with manifests present is an error; enabled
requires every manifest to be a valid URL. -/
def ecpErrors (cc : Option Machinery.ClusterConfig) : List String :=
  match cc with
  | none => []
  | some cl =>
    match cl.ExternalCloudProviderConfig with
    | none => []
    | some e =>
      if e.ExternalEnabled then firstInvalidManifest e.ExternalManifests
      else if e.ExternalManifests.isEmpty then [] else [ecpDisabledMsg]

/-- Modelled from the spec: machine-type warning (§4.3 rule 2). -/
def machineWarnings (m : MachineConfig) : List String :=
  if m.MachineType = "" then [machineTypeWarning] else []

/-- Install instructions are missing when `MachineInstall` is nil or its
disk is empty. -/
def installDiskMissing (m : MachineConfig) : Bool :=
  match m.MachineInstall with
  | none => true
  | some i => i.InstallDisk == ""

/-- Modelled from the spec: install requirement (§4.3 rule 3). -/
def installErrors (m : MachineConfig) (mode : RuntimeMode) : List String :=
  if mode.requiresInstall && installDiskMissing m then [installRequiredMsg mode]
  else []

/-- Modelled from the spec: one validation pass collecting `(warnings,
error messages)` in rule-evaluation order (§4.3 rules 1–4; `Validate`
itself is outside the provided sources, only its test is).  A nil
`MachineConfig` is fatal and short-circuits the remaining rules. -/
def validateMessages (c : Config) (mode : RuntimeMode) :
    List String × List String :=
  match c.MachineConfig with
  | none => ([], [machineRequiredMsg])
  | some m => (machineWarnings m, installErrors m mode ++ ecpErrors c.ClusterConfig)

/-- Modelled from the spec: `Validate` returns the warnings and the
aggregated error; under `strict` every warning is promoted into the
aggregated error as `"warning: <message>"` and the warnings sequence is
returned empty (§4.3 strict mode semantics). -/
def validate (c : Config) (mode : RuntimeMode) (opts : ValidationOptions) :
    List String × Option String :=
  let ws := (validateMessages c mode).1
  let es := (validateMessages c mode).2
  if opts.Strict then
    ([], formatAggregate (es ++ ws.map (fun w => "warning: " ++ w)))
  else
    (ws, formatAggregate es)

/-- The endpoint used by every document of the validation test. -/
def testEndpoint : Talos.Endpoint :=
  ⟨some ⟨"https", "localhost:6443", "/", "", ""⟩⟩

/-- The cluster config shared by the test documents (control plane with
endpoint, no external cloud provider). -/
def testClusterConfig : Machinery.ClusterConfig :=
  ⟨some ⟨"", some testEndpoint, 0⟩, none⟩

/-- The first three characters of a string, used to separate the fixed
prefixes of the validator's distinct error messages. -/
def firstThree (t : String) : List Char := t.data.take 3

end Machinery

/-- Claim C5 (counterexample): the claim that every accessor is a total
read — never failing even with a nil `ControlPlane` or nil `APIServer` —
is false: on the document with every pointer nil, `Version` dereferences
the nil `ControlPlane` pointer (a Go panic, modelled as `none`), and
likewise `LocalAPIServerPort`, `Endpoint` and `CertSANs`. -/
theorem C5_accessor_totality_counterexample :
    ¬ ∀ c : Talos.ClusterConfig,
        (c.Version).isSome = true ∧ (c.LocalAPIServerPort).isSome = true
          ∧ (c.Endpoint).isSome = true ∧ (c.CertSANs).isSome = true := by
  intro h
  exact absurd (h Talos.emptyClusterConfig).1 (by decide)

/-- Claim C5 (amended): `CA`, `AESCBCEncryptionSecret`, `ID`, `Secret`,
`CNI`, `PodCIDR` and `ServiceCIDR` are total over any `ClusterConfig`
(their types are not `Option`-valued for panic); `Version` and
`LocalAPIServerPort` return a value exactly when `ControlPlane` is
non-nil, `CertSANs` exactly when `APIServer` is non-nil, and `Endpoint`
exactly when `ControlPlane` and its `Endpoint` pointer are non-nil. -/
theorem C5_accessor_totality_amended (c : Talos.ClusterConfig) :
    (c.Version).isSome = c.ControlPlane.isSome
    ∧ (c.LocalAPIServerPort).isSome = c.ControlPlane.isSome
    ∧ (c.CertSANs).isSome = c.APIServer.isSome
    ∧ ((c.Endpoint).isSome = true ↔
        ∃ cp, c.ControlPlane = some cp ∧ cp.Endpoint.isSome = true)
    ∧ c.CA = c.ClusterCA
    ∧ c.AESCBCEncryptionSecret = c.ClusterAESCBCEncryptionSecret := by
  refine ⟨?_, ?_, ?_, ?_, rfl, rfl⟩
  · cases h : c.ControlPlane <;> simp [Talos.ClusterConfig.Version, h]
  · cases h : c.ControlPlane with
    | none => simp [Talos.ClusterConfig.LocalAPIServerPort, h]
    | some cp =>
      simp only [Talos.ClusterConfig.LocalAPIServerPort, h, Option.isSome_some]
      split <;> rfl
  · cases h : c.APIServer <;> simp [Talos.ClusterConfig.CertSANs, h]
  · cases h : c.ControlPlane with
    | none => simp [Talos.ClusterConfig.Endpoint, h]
    | some cp =>
      cases hE : cp.Endpoint with
      | none => simp [Talos.ClusterConfig.Endpoint, h, hE]
      | some e => simp [Talos.ClusterConfig.Endpoint, h, hE]

/-- Claim C6: `ID` is the first and `Secret` the second of the two
`"."`-separated parts of `BootstrapToken` when the split has exactly two
parts, and both are `""` otherwise; in particular `"abc123.def456"` gives
`("abc123", "def456")` while `"malformed"` and `"a.b.c"` give `("", "")`. -/
theorem C6_token_decomposition (c : Talos.ClusterConfig) :
    (∀ i s, Talos.stringsSplit c.BootstrapToken '.' = [i, s] →
      c.ID = i ∧ c.Secret = s)
    ∧ ((Talos.stringsSplit c.BootstrapToken '.').length ≠ 2 →
      c.ID = "" ∧ c.Secret = "")
    ∧ (c.BootstrapToken = "abc123.def456" →
      c.ID = "abc123" ∧ c.Secret = "def456")
    ∧ (c.BootstrapToken = "malformed" → c.ID = "" ∧ c.Secret = "")
    ∧ (c.BootstrapToken = "a.b.c" → c.ID = "" ∧ c.Secret = "") := by
  refine ⟨?_, ?_, ?_, ?_, ?_⟩
  · intro i s h
    constructor <;> simp [Talos.ClusterConfig.ID, Talos.ClusterConfig.Secret, h]
  · intro h
    constructor <;> simp [Talos.ClusterConfig.ID, Talos.ClusterConfig.Secret, h]
  · intro h
    constructor <;>
      simp [Talos.ClusterConfig.ID, Talos.ClusterConfig.Secret, h] <;> decide
  · intro h
    constructor <;>
      simp [Talos.ClusterConfig.ID, Talos.ClusterConfig.Secret, h] <;> decide
  · intro h
    constructor <;>
      simp [Talos.ClusterConfig.ID, Talos.ClusterConfig.Secret, h] <;> decide

/-- Claim C6 witness: the three concrete tokens evaluated through the
theorem. -/
theorem C6_token_decomposition_witness :
    ({ Talos.emptyClusterConfig with BootstrapToken := "abc123.def456" } :
        Talos.ClusterConfig).ID = "abc123"
    ∧ ({ Talos.emptyClusterConfig with BootstrapToken := "abc123.def456" } :
        Talos.ClusterConfig).Secret = "def456"
    ∧ ({ Talos.emptyClusterConfig with BootstrapToken := "malformed" } :
        Talos.ClusterConfig).ID = ""
    ∧ ({ Talos.emptyClusterConfig with BootstrapToken := "a.b.c" } :
        Talos.ClusterConfig).Secret = "" :=
  ⟨((C6_token_decomposition _).2.2.1 rfl).1,
   ((C6_token_decomposition _).2.2.1 rfl).2,
   ((C6_token_decomposition _).2.2.2.1 rfl).1,
   ((C6_token_decomposition _).2.2.2.2 rfl).2⟩

/-- Claim C7: with a non-nil `ControlPlane`, `LocalAPIServerPort` returns
the field when it is nonzero and 6443 when it is zero. -/
theorem C7_local_apiserver_port (c : Talos.ClusterConfig)
    (cp : Talos.ControlPlaneConfig) (h : c.ControlPlane = some cp) :
    (cp.LocalAPIServerPort ≠ 0 →
      c.LocalAPIServerPort = some cp.LocalAPIServerPort)
    ∧ (cp.LocalAPIServerPort = 0 → c.LocalAPIServerPort = some 6443) := by
  constructor
  · intro hnz
    simp [Talos.ClusterConfig.LocalAPIServerPort, h, hnz]
  · intro hz
    simp [Talos.ClusterConfig.LocalAPIServerPort, h, hz]

/-- Claim C7 witness: ports 0 and 123 evaluated through the theorem. -/
theorem C7_local_apiserver_port_witness :
    ({ Talos.emptyClusterConfig with ControlPlane := some ⟨"", none, 0⟩ } :
        Talos.ClusterConfig).LocalAPIServerPort = some 6443
    ∧ ({ Talos.emptyClusterConfig with ControlPlane := some ⟨"", none, 123⟩ } :
        Talos.ClusterConfig).LocalAPIServerPort = some 123 :=
  ⟨(C7_local_apiserver_port _ ⟨"", none, 0⟩ rfl).2 rfl,
   (C7_local_apiserver_port _ ⟨"", none, 123⟩ rfl).1 (by decide)⟩

/-- Claim C8: `CNI`, `PodCIDR` and `ServiceCIDR` return the configured
value (`CNI` when non-empty, the first subnet element) and fall back to
the fixed system defaults when the network config is nil or the value is
absent; elements of the subnet sequences beyond index 0 never influence
the results (the head alone determines them, for every tail). -/
theorem C8_network_accessors (c : Talos.ClusterConfig) :
    (c.ClusterNetwork = none →
      c.CNI = Talos.DefaultCNI ∧ c.PodCIDR = Talos.DefaultPodCIDR
        ∧ c.ServiceCIDR = Talos.DefaultServiceCIDR)
    ∧ (∀ n, c.ClusterNetwork = some n →
      (n.CNI ≠ "" → c.CNI = n.CNI)
      ∧ (n.CNI = "" → c.CNI = Talos.DefaultCNI)
      ∧ (∀ x l, n.PodSubnet = x :: l → c.PodCIDR = x)
      ∧ (n.PodSubnet = [] → c.PodCIDR = Talos.DefaultPodCIDR)
      ∧ (∀ x l, n.ServiceSubnet = x :: l → c.ServiceCIDR = x)
      ∧ (n.ServiceSubnet = [] → c.ServiceCIDR = Talos.DefaultServiceCIDR)) := by
  constructor
  · intro h
    refine ⟨?_, ?_, ?_⟩ <;>
      simp [Talos.ClusterConfig.CNI, Talos.ClusterConfig.PodCIDR,
        Talos.ClusterConfig.ServiceCIDR, h]
  · intro n h
    refine ⟨?_, ?_, ?_, ?_, ?_, ?_⟩
    · intro hc; simp [Talos.ClusterConfig.CNI, h, hc]
    · intro hc; simp [Talos.ClusterConfig.CNI, h, hc]
    · intro x l hp; simp [Talos.ClusterConfig.PodCIDR, h, hp]
    · intro hp; simp [Talos.ClusterConfig.PodCIDR, h, hp]
    · intro x l hs; simp [Talos.ClusterConfig.ServiceCIDR, h, hs]
    · intro hs; simp [Talos.ClusterConfig.ServiceCIDR, h, hs]

/-- Claim C8 witness: a two-element pod subnet list is decided by its
head; an absent network yields the defaults. -/
theorem C8_network_accessors_witness :
    ({ Talos.emptyClusterConfig
        with ClusterNetwork := some ⟨"", "", ["10.0.0.0/8", "172.16.0.0/12"], []⟩ } :
          Talos.ClusterConfig).PodCIDR = "10.0.0.0/8"
    ∧ Talos.emptyClusterConfig.CNI = Talos.DefaultCNI :=
  ⟨((C8_network_accessors _).2 _ rfl).2.2.1 "10.0.0.0/8" ["172.16.0.0/12"] rfl,
   ((C8_network_accessors Talos.emptyClusterConfig).1 rfl).1⟩

/-- Claim C10: `SetCertSANs` never panics (it is total, allocating an
empty `APIServerConfig` when the pointer is nil), afterwards the
`CertSANs` equal the previous ones followed by `sans` in order, the
`APIServer`'s `Image` and `ExtraArgs` are preserved, and every other
field of the document is unchanged. -/
theorem C10_set_cert_sans (c : Talos.ClusterConfig) (sans : List String) :
    ((c.SetCertSANs sans).APIServer).isSome = true
    ∧ ((c.SetCertSANs sans).APIServer.map Talos.APIServerConfig.CertSANs).getD []
        = (c.APIServer.map Talos.APIServerConfig.CertSANs).getD [] ++ sans
    ∧ (c.SetCertSANs sans).ControlPlane = c.ControlPlane
    ∧ (c.SetCertSANs sans).ClusterName = c.ClusterName
    ∧ (c.SetCertSANs sans).ClusterNetwork = c.ClusterNetwork
    ∧ (c.SetCertSANs sans).BootstrapToken = c.BootstrapToken
    ∧ (c.SetCertSANs sans).CertificateKey = c.CertificateKey
    ∧ (c.SetCertSANs sans).ClusterAESCBCEncryptionSecret
        = c.ClusterAESCBCEncryptionSecret
    ∧ (c.SetCertSANs sans).ClusterCA = c.ClusterCA
    ∧ (c.SetCertSANs sans).ControllerManager = c.ControllerManager
    ∧ (c.SetCertSANs sans).Scheduler = c.Scheduler
    ∧ (c.SetCertSANs sans).EtcdConfig = c.EtcdConfig
    ∧ (c.APIServer = none →
        (c.SetCertSANs sans).APIServer = some ⟨"", [], sans⟩)
    ∧ (∀ api, c.APIServer = some api →
        (c.SetCertSANs sans).APIServer
          = some { api with CertSANs := api.CertSANs ++ sans }) := by
  cases h : c.APIServer with
  | none =>
    refine ⟨?_, ?_, ?_, ?_, ?_, ?_, ?_, ?_, ?_, ?_, ?_, ?_, ?_, ?_⟩ <;>
      simp [Talos.ClusterConfig.SetCertSANs, h]
  | some api =>
    refine ⟨?_, ?_, ?_, ?_, ?_, ?_, ?_, ?_, ?_, ?_, ?_, ?_, ?_, ?_⟩ <;>
      simp [Talos.ClusterConfig.SetCertSANs, h]

/-- Claim C10 witness: appending to a document with nil `APIServer` and to
one with existing SANs, through the theorem. -/
theorem C10_set_cert_sans_witness :
    (Talos.emptyClusterConfig.SetCertSANs ["a", "b"]).APIServer
        = some ⟨"", [], ["a", "b"]⟩
    ∧ (({ Talos.emptyClusterConfig
          with APIServer := some ⟨"img", [], ["x"]⟩ } : Talos.ClusterConfig).SetCertSANs
            ["a", "b"]).APIServer
        = some ⟨"img", [], ["x", "a", "b"]⟩ :=
  ⟨(C10_set_cert_sans Talos.emptyClusterConfig ["a", "b"]).2.2.2.2.2.2.2.2.2.2.2.2.1 rfl,
   (C10_set_cert_sans _ ["a", "b"]).2.2.2.2.2.2.2.2.2.2.2.2.2 ⟨"img", [], ["x"]⟩ rfl⟩

theorem formatAggregate_ne_nil (msgs : List String) (h : msgs ≠ []) :
    Machinery.formatAggregate msgs = some (Machinery.renderAggregate msgs) := by
  cases msgs with
  | nil => exact absurd rfl h
  | cons a l => rfl

theorem renderAggregate_singleton (msg : String) :
    Machinery.renderAggregate [msg]
      = "1 error occurred:\n\t* " ++ msg ++ "\n\n" := by
  have h1 : Machinery.renderAggregate [msg]
      = "1 error occurred:\n" ++ ("\t* " ++ msg ++ "\n" ++ "") ++ "\n" := rfl
  rw [h1, String.append_empty]
  simp only [String.append_assoc]
  rw [← String.append_assoc]
  simp

theorem firstThree_append (a b : String) (h : 3 ≤ a.data.length) :
    Machinery.firstThree (a ++ b) = a.data.take 3 := by
  unfold Machinery.firstThree
  rw [String.data_append, List.take_append_of_le_length h]

theorem firstThree_installMsg (s : String) :
    Machinery.firstThree
        ("install instructions are required in \"" ++ s ++ "\" mode")
      = ['i', 'n', 's'] := by
  rw [String.append_assoc, firstThree_append _ _ (by decide)]
  decide

theorem firstThree_invalidMsg (u : String) :
    Machinery.firstThree (Machinery.invalidManifestMsg u) = ['i', 'n', 'v'] := by
  unfold Machinery.invalidManifestMsg
  rw [String.append_assoc, firstThree_append _ _ (by decide)]
  decide

theorem installMsg_ne_ecpMsg (s msg : String)
    (h : msg = Machinery.ecpDisabledMsg ∨
      ∃ u, msg = Machinery.invalidManifestMsg u) :
    "install instructions are required in \"" ++ s ++ "\" mode" ≠ msg := by
  intro heq
  have h3 := congrArg Machinery.firstThree heq
  rw [firstThree_installMsg] at h3
  rcases h with h1 | ⟨u, h1⟩
  · subst h1
    exact absurd h3 (by decide)
  · subst h1
    rw [firstThree_invalidMsg] at h3
    exact absurd h3 (by decide)

theorem firstInvalidManifest_shape (l : List String) :
    ∀ msg ∈ Machinery.firstInvalidManifest l,
      ∃ u, msg = Machinery.invalidManifestMsg u := by
  induction l with
  | nil => intro msg hmsg; simp [Machinery.firstInvalidManifest] at hmsg
  | cons a rest ih =>
    intro msg hmsg
    simp only [Machinery.firstInvalidManifest] at hmsg
    by_cases ha : Machinery.isValidManifestURL a = true
    · rw [if_pos ha] at hmsg
      exact ih msg hmsg
    · rw [if_neg ha] at hmsg
      simp at hmsg
      exact ⟨a, hmsg⟩

theorem ecpErrors_shape (cc : Option Machinery.ClusterConfig) :
    ∀ msg ∈ Machinery.ecpErrors cc,
      msg = Machinery.ecpDisabledMsg ∨
        ∃ u, msg = Machinery.invalidManifestMsg u := by
  intro msg hmsg
  cases cc with
  | none => simp [Machinery.ecpErrors] at hmsg
  | some cl =>
    cases hE : cl.ExternalCloudProviderConfig with
    | none => simp [Machinery.ecpErrors, hE] at hmsg
    | some e =>
      simp only [Machinery.ecpErrors, hE] at hmsg
      by_cases hEn : e.ExternalEnabled = true
      · rw [if_pos hEn] at hmsg
        exact Or.inr (firstInvalidManifest_shape e.ExternalManifests msg hmsg)
      · rw [if_neg hEn] at hmsg
        by_cases hM : e.ExternalManifests.isEmpty = true
        · rw [if_pos hM] at hmsg
          simp at hmsg
        · rw [if_neg hM] at hmsg
          simp at hmsg
          exact Or.inl hmsg

theorem mem_installErrors_iff (m : Machinery.MachineConfig)
    (mode : Machinery.RuntimeMode) :
    Machinery.installRequiredMsg mode ∈ Machinery.installErrors m mode ↔
      mode.requiresInstall = true ∧ Machinery.installDiskMissing m = true := by
  unfold Machinery.installErrors
  split
  next h => rw [Bool.and_eq_true] at h; simp [h]
  next h => rw [Bool.and_eq_true] at h; simp [h]

theorem installDiskMissing_iff (m : Machinery.MachineConfig) :
    Machinery.installDiskMissing m = true ↔
      (m.MachineInstall = none ∨
        ∃ i, m.MachineInstall = some i ∧ i.InstallDisk = "") := by
  cases hI : m.MachineInstall with
  | none => simp [Machinery.installDiskMissing, hI]
  | some i => simp [Machinery.installDiskMissing, hI]

theorem firstInvalid_eq_of_find (l : List String) (u : String)
    (h : l.find? (fun v => ! Machinery.isValidManifestURL v) = some u) :
    Machinery.firstInvalidManifest l = [Machinery.invalidManifestMsg u] := by
  induction l with
  | nil => simp at h
  | cons a rest ih =>
    rw [List.find?_cons] at h
    simp only [Machinery.firstInvalidManifest]
    by_cases ha : Machinery.isValidManifestURL a = true
    · have hpa : (! Machinery.isValidManifestURL a) = false := by simp [ha]
      rw [hpa] at h
      simp only at h
      rw [if_pos ha]
      exact ih h
    · have hpa : (! Machinery.isValidManifestURL a) = true := by simp [ha]
      rw [hpa] at h
      simp only [Option.some.injEq] at h
      rw [if_neg ha, h]

theorem firstInvalid_nil_of_all_valid (l : List String)
    (h : ∀ u ∈ l, Machinery.isValidManifestURL u = true) :
    Machinery.firstInvalidManifest l = [] := by
  induction l with
  | nil => rfl
  | cons a rest ih =>
    simp only [Machinery.firstInvalidManifest]
    rw [if_pos (h a (List.mem_cons_self a rest))]
    exact ih (fun u hu => h u (List.mem_cons_of_mem a hu))

theorem validate_of_machine_type_nonempty (c : Machinery.Config)
    (m : Machinery.MachineConfig) (mode : Machinery.RuntimeMode)
    (opts : Machinery.ValidationOptions) (hm : c.MachineConfig = some m)
    (hty : m.MachineType ≠ "") :
    Machinery.validate c mode opts
      = ([], Machinery.formatAggregate (Machinery.validateMessages c mode).2) := by
  have hw : (Machinery.validateMessages c mode).1 = [] := by
    unfold Machinery.validateMessages
    rw [hm]
    simp [Machinery.machineWarnings, hty]
  unfold Machinery.validate
  rw [hw]
  cases hS : opts.Strict
  · simp [hS]
  · simp [hS]

/-- Claim C1: with `strict = true` the returned warnings sequence is empty
and every warning that non-strict validation would return appears among
the aggregated error's messages prefixed with `"warning: "`; with
`strict = false` the warnings of the rule pass are returned as-is and the
error is computed from the error messages alone; on the otherwise-valid
document with empty machine type this gives no warnings and the error
`"1 error occurred:\n\t* warning: machine type is empty\n\n"` (strict),
and the single warning with no error (non-strict). -/
theorem C1_strict_promotion (c : Machinery.Config)
    (mode : Machinery.RuntimeMode) (l : Bool) :
    (Machinery.validate c mode ⟨l, true⟩).1 = []
    ∧ (∀ w, w ∈ (Machinery.validate c mode ⟨l, false⟩).1 →
        ∃ msgs, (Machinery.validate c mode ⟨l, true⟩).2
            = some (Machinery.renderAggregate msgs)
          ∧ ("warning: " ++ w) ∈ msgs)
    ∧ (Machinery.validate c mode ⟨l, false⟩).1
        = (Machinery.validateMessages c mode).1
    ∧ (Machinery.validate c mode ⟨l, false⟩).2
        = Machinery.formatAggregate (Machinery.validateMessages c mode).2
    ∧ Machinery.validate
        ⟨"v1alpha1", some ⟨"", none⟩, some Machinery.testClusterConfig⟩
        ⟨false, "runtimeMode(false)"⟩ ⟨l, true⟩
      = ([], some "1 error occurred:\n\t* warning: machine type is empty\n\n")
    ∧ Machinery.validate
        ⟨"v1alpha1", some ⟨"", none⟩, some Machinery.testClusterConfig⟩
        ⟨false, "runtimeMode(false)"⟩ ⟨l, false⟩
      = (["machine type is empty"], none) := by
  refine ⟨rfl, ?_, rfl, rfl, by cases l <;> decide, by cases l <;> decide⟩
  intro w hw
  have hw' : w ∈ (Machinery.validateMessages c mode).1 := hw
  refine ⟨(Machinery.validateMessages c mode).2
      ++ ((Machinery.validateMessages c mode).1).map (fun x => "warning: " ++ x),
    ?_, ?_⟩
  · show Machinery.formatAggregate _ = _
    apply formatAggregate_ne_nil
    intro hnil
    rcases List.append_eq_nil.mp hnil with ⟨-, h2⟩
    rw [List.map_eq_nil_iff] at h2
    rw [h2] at hw'
    exact absurd hw' (List.not_mem_nil w)
  · exact List.mem_append_right _ (List.mem_map_of_mem _ hw')

/-- Claim C1 witness: the promoted warning of the example document found
among the strict aggregated error's messages. -/
theorem C1_strict_promotion_witness :
    ∃ msgs, (Machinery.validate
        ⟨"v1alpha1", some ⟨"", none⟩, some Machinery.testClusterConfig⟩
        ⟨false, "runtimeMode(false)"⟩ ⟨true, true⟩).2
      = some (Machinery.renderAggregate msgs)
      ∧ ("warning: " ++ "machine type is empty") ∈ msgs :=
  (C1_strict_promotion _ _ true).2.1 "machine type is empty" (by decide)

/-- Claim C2: a document with nil `MachineConfig` always validates to no
warnings and exactly the aggregated error
`"1 error occurred:\n\t* machine instructions are required\n\n"`, for
every runtime mode and both strict and non-strict options. -/
theorem C2_nil_machine_config (c : Machinery.Config)
    (mode : Machinery.RuntimeMode) (opts : Machinery.ValidationOptions)
    (h : c.MachineConfig = none) :
    Machinery.validate c mode opts
      = ([], some "1 error occurred:\n\t* machine instructions are required\n\n") := by
  have hv : Machinery.validateMessages c mode
      = ([], [Machinery.machineRequiredMsg]) := by
    unfold Machinery.validateMessages
    rw [h]
  unfold Machinery.validate
  rw [hv]
  rcases opts with ⟨lo, st⟩
  cases st <;> cases lo <;> decide

/-- Claim C2 witness: the test's `NoMachine` document, under both option
settings. -/
theorem C2_nil_machine_config_witness :
    Machinery.validate ⟨"v1alpha1", none, none⟩
        ⟨false, "runtimeMode(false)"⟩ ⟨true, false⟩
      = ([], some "1 error occurred:\n\t* machine instructions are required\n\n")
    ∧ Machinery.validate ⟨"v1alpha1", none, none⟩
        ⟨true, "runtimeMode(true)"⟩ ⟨true, true⟩
      = ([], some "1 error occurred:\n\t* machine instructions are required\n\n") :=
  ⟨C2_nil_machine_config _ _ _ rfl, C2_nil_machine_config _ _ _ rfl⟩

/-- Claim C3: for a document with non-nil `MachineConfig`, the message
`install instructions are required in "<mode>" mode` (with the mode's
literal string interpolated) is among the collected error messages exactly
when the mode requires install and the install config is nil or its disk
is empty; additionally the two install test documents validate to the
expected full results. -/
theorem C3_install_requirement (c : Machinery.Config)
    (m : Machinery.MachineConfig) (mode : Machinery.RuntimeMode)
    (h : c.MachineConfig = some m) :
    (("install instructions are required in \"" ++ mode.toString ++ "\" mode")
        ∈ (Machinery.validateMessages c mode).2
      ↔ mode.requiresInstall = true ∧
          (m.MachineInstall = none ∨
            ∃ i, m.MachineInstall = some i ∧ i.InstallDisk = ""))
    ∧ Machinery.validate
        ⟨"v1alpha1", some ⟨"join", none⟩, some Machinery.testClusterConfig⟩
        ⟨true, "runtimeMode(true)"⟩ ⟨true, false⟩
      = ([], some "1 error occurred:\n\t* install instructions are required in \"runtimeMode(true)\" mode\n\n")
    ∧ Machinery.validate
        ⟨"v1alpha1", some ⟨"join", some ⟨"/dev/vda"⟩⟩,
          some Machinery.testClusterConfig⟩
        ⟨true, "runtimeMode(true)"⟩ ⟨true, false⟩
      = ([], none) := by
  refine ⟨?_, by decide, by decide⟩
  have hv : (Machinery.validateMessages c mode).2
      = Machinery.installErrors m mode ++ Machinery.ecpErrors c.ClusterConfig := by
    unfold Machinery.validateMessages
    rw [h]
  have hmsg : ("install instructions are required in \"" ++ mode.toString ++ "\" mode")
      = Machinery.installRequiredMsg mode := rfl
  rw [hmsg, hv, List.mem_append]
  constructor
  · rintro (hin | hin)
    · have hc := (mem_installErrors_iff m mode).mp hin
      exact ⟨hc.1, (installDiskMissing_iff m).mp hc.2⟩
    · exact absurd rfl
        (installMsg_ne_ecpMsg mode.toString _ (ecpErrors_shape _ _ hin))
  · intro hc
    exact Or.inl ((mem_installErrors_iff m mode).mpr
      ⟨hc.1, (installDiskMissing_iff m).mpr hc.2⟩)

/-- Claim C3 witness: the install-required message is produced for the
test's `NoMachineInstallRequired` document (nil install, mode requiring
install). -/
theorem C3_install_requirement_witness :
    ("install instructions are required in \"" ++ "runtimeMode(true)" ++ "\" mode")
      ∈ (Machinery.validateMessages
          ⟨"v1alpha1", some ⟨"join", none⟩, some Machinery.testClusterConfig⟩
          ⟨true, "runtimeMode(true)"⟩).2 :=
  (C3_install_requirement _ ⟨"join", none⟩ _ rfl).1.mpr ⟨rfl, Or.inl rfl⟩

theorem renderAggregate_invalidMsg (u : String) :
    Machinery.renderAggregate [Machinery.invalidManifestMsg u]
      = "1 error occurred:\n\t* invalid external cloud provider manifest url \""
          ++ u ++ "\": hostname must not be blank\n\n" := by
  rw [renderAggregate_singleton]
  unfold Machinery.invalidManifestMsg
  simp only [String.append_assoc]
  rw [← String.append_assoc, ← String.append_assoc]
  simp [String.append_assoc]

theorem aggregate_invalidMsg (u : String) :
    Machinery.formatAggregate [Machinery.invalidManifestMsg u]
      = some ("1 error occurred:\n\t* invalid external cloud provider manifest url \""
          ++ u ++ "\": hostname must not be blank\n\n") := by
  rw [formatAggregate_ne_nil _ (by simp), renderAggregate_invalidMsg]

/-- Claim C4: on an otherwise-valid document (non-nil machine config,
non-empty machine type, no install error) carrying an external cloud
provider config: disabled with manifests present yields exactly the
"disabled, but manifests are provided" error; enabled with a first
offending manifest `u` (per `List.find?`) yields exactly the error naming
`u`; enabled with all manifests valid yields no warnings and no error. -/
theorem C4_external_cloud_provider (c : Machinery.Config)
    (m : Machinery.MachineConfig) (mode : Machinery.RuntimeMode)
    (cl : Machinery.ClusterConfig) (e : Machinery.ExternalCloudProviderConfig)
    (opts : Machinery.ValidationOptions)
    (hm : c.MachineConfig = some m) (hty : m.MachineType ≠ "")
    (hinst : Machinery.installErrors m mode = [])
    (hcl : c.ClusterConfig = some cl)
    (he : cl.ExternalCloudProviderConfig = some e) :
    (e.ExternalEnabled = false → e.ExternalManifests ≠ [] →
      Machinery.validate c mode opts
        = ([], some "1 error occurred:\n\t* external cloud provider is disabled, but manifests are provided\n\n"))
    ∧ (∀ u, e.ExternalEnabled = true →
        e.ExternalManifests.find? (fun v => ! Machinery.isValidManifestURL v)
            = some u →
        Machinery.validate c mode opts
          = ([], some ("1 error occurred:\n\t* invalid external cloud provider manifest url \""
              ++ u ++ "\": hostname must not be blank\n\n")))
    ∧ (e.ExternalEnabled = true →
        (∀ u ∈ e.ExternalManifests, Machinery.isValidManifestURL u = true) →
        Machinery.validate c mode opts = ([], none)) := by
  have hval : Machinery.validate c mode opts
      = ([], Machinery.formatAggregate (Machinery.ecpErrors c.ClusterConfig)) := by
    rw [validate_of_machine_type_nonempty c m mode opts hm hty]
    have hv : (Machinery.validateMessages c mode).2
        = Machinery.installErrors m mode ++ Machinery.ecpErrors c.ClusterConfig := by
      unfold Machinery.validateMessages
      rw [hm]
    rw [hv, hinst, List.nil_append]
  have hecp : Machinery.ecpErrors c.ClusterConfig
      = (if e.ExternalEnabled then
          Machinery.firstInvalidManifest e.ExternalManifests
         else if e.ExternalManifests.isEmpty then []
         else [Machinery.ecpDisabledMsg]) := by
    rw [hcl]
    simp [Machinery.ecpErrors, he]
  refine ⟨?_, ?_, ?_⟩
  · intro hEn hMan
    rw [hval, hecp, if_neg (by simp [hEn]),
      if_neg (by simpa using hMan)]
    decide
  · intro u hEn hfind
    rw [hval, hecp, if_pos hEn, firstInvalid_eq_of_find _ _ hfind,
      aggregate_invalidMsg]
  · intro hEn hall
    rw [hval, hecp, if_pos hEn, firstInvalid_nil_of_all_valid _ hall]
    rfl

/-- Claim C4 witness: the three external-cloud-provider test documents,
each through the theorem. -/
theorem C4_external_cloud_provider_witness :
    Machinery.validate
        ⟨"v1alpha1", some ⟨"join", none⟩,
          some ⟨Machinery.testClusterConfig.ControlPlane,
            some ⟨false, ["https://www.example.com/manifest1.yaml"]⟩⟩⟩
        ⟨false, "runtimeMode(false)"⟩ ⟨true, false⟩
      = ([], some "1 error occurred:\n\t* external cloud provider is disabled, but manifests are provided\n\n")
    ∧ Machinery.validate
        ⟨"v1alpha1", some ⟨"join", none⟩,
          some ⟨Machinery.testClusterConfig.ControlPlane,
            some ⟨true, ["/manifest.yaml"]⟩⟩⟩
        ⟨false, "runtimeMode(false)"⟩ ⟨true, false⟩
      = ([], some ("1 error occurred:\n\t* invalid external cloud provider manifest url \""
          ++ "/manifest.yaml" ++ "\": hostname must not be blank\n\n"))
    ∧ Machinery.validate
        ⟨"v1alpha1", some ⟨"join", none⟩,
          some ⟨Machinery.testClusterConfig.ControlPlane,
            some ⟨true, ["https://www.example.com/manifest1.yaml"]⟩⟩⟩
        ⟨false, "runtimeMode(false)"⟩ ⟨true, false⟩
      = ([], none) :=
  ⟨(C4_external_cloud_provider
      ⟨"v1alpha1", some ⟨"join", none⟩,
        some ⟨Machinery.testClusterConfig.ControlPlane,
          some ⟨false, ["https://www.example.com/manifest1.yaml"]⟩⟩⟩
      ⟨"join", none⟩ ⟨false, "runtimeMode(false)"⟩
      ⟨Machinery.testClusterConfig.ControlPlane,
        some ⟨false, ["https://www.example.com/manifest1.yaml"]⟩⟩
      ⟨false, ["https://www.example.com/manifest1.yaml"]⟩ ⟨true, false⟩
      rfl (by decide) rfl rfl rfl).1 rfl (by decide),
   (C4_external_cloud_provider
      ⟨"v1alpha1", some ⟨"join", none⟩,
        some ⟨Machinery.testClusterConfig.ControlPlane,
          some ⟨true, ["/manifest.yaml"]⟩⟩⟩
      ⟨"join", none⟩ ⟨false, "runtimeMode(false)"⟩
      ⟨Machinery.testClusterConfig.ControlPlane, some ⟨true, ["/manifest.yaml"]⟩⟩
      ⟨true, ["/manifest.yaml"]⟩ ⟨true, false⟩
      rfl (by decide) rfl rfl rfl).2.1 "/manifest.yaml" rfl (by decide),
   (C4_external_cloud_provider
      ⟨"v1alpha1", some ⟨"join", none⟩,
        some ⟨Machinery.testClusterConfig.ControlPlane,
          some ⟨true, ["https://www.example.com/manifest1.yaml"]⟩⟩⟩
      ⟨"join", none⟩ ⟨false, "runtimeMode(false)"⟩
      ⟨Machinery.testClusterConfig.ControlPlane,
        some ⟨true, ["https://www.example.com/manifest1.yaml"]⟩⟩
      ⟨true, ["https://www.example.com/manifest1.yaml"]⟩ ⟨true, false⟩
      rfl (by decide) rfl rfl rfl).2.2 rfl (by decide)⟩

example : (Talos.emptyClusterConfig.Version) = none := by decide
example :
    ({ Talos.emptyClusterConfig with BootstrapToken := "abc123.def456" }).ID
      = "abc123" := by decide
example :
    ({ Talos.emptyClusterConfig with BootstrapToken := "a.b.c" }).Secret
      = "" := by decide
example : Talos.emptyClusterConfig.CNI = "flannel" := by decide

-- Scratch: replicate the Go test table (to be pruned).
example :
    Machinery.validate ⟨"v1alpha1", none, none⟩ ⟨false, "runtimeMode(false)"⟩
        ⟨true, false⟩
      = ([], some "1 error occurred:\n\t* machine instructions are required\n\n") := by
  decide

example :
    Machinery.validate
        ⟨"v1alpha1", some ⟨"", none⟩, some Machinery.testClusterConfig⟩
        ⟨false, "runtimeMode(false)"⟩ ⟨true, false⟩
      = (["machine type is empty"], none) := by
  decide

example :
    Machinery.validate
        ⟨"v1alpha1", some ⟨"", none⟩, some Machinery.testClusterConfig⟩
        ⟨false, "runtimeMode(false)"⟩ ⟨true, true⟩
      = ([], some "1 error occurred:\n\t* warning: machine type is empty\n\n") := by
  decide

example :
    Machinery.validate
        ⟨"v1alpha1", some ⟨"join", none⟩, some Machinery.testClusterConfig⟩
        ⟨false, "runtimeMode(false)"⟩ ⟨true, false⟩
      = ([], none) := by
  decide

example :
    Machinery.validate
        ⟨"v1alpha1", some ⟨"join", none⟩, some Machinery.testClusterConfig⟩
        ⟨true, "runtimeMode(true)"⟩ ⟨true, false⟩
      = ([], some "1 error occurred:\n\t* install instructions are required in \"runtimeMode(true)\" mode\n\n") := by
  decide

example :
    Machinery.validate
        ⟨"v1alpha1", some ⟨"join", some ⟨"/dev/vda"⟩⟩, some Machinery.testClusterConfig⟩
        ⟨true, "runtimeMode(true)"⟩ ⟨true, false⟩
      = ([], none) := by
  decide

example :
    Machinery.validate
        ⟨"v1alpha1", some ⟨"join", none⟩,
          some ⟨Machinery.testClusterConfig.ControlPlane,
            some ⟨true, ["https://www.example.com/manifest1.yaml",
              "https://www.example.com/manifest2.yaml"]⟩⟩⟩
        ⟨false, "runtimeMode(false)"⟩ ⟨true, false⟩
      = ([], none) := by
  decide

example :
    Machinery.validate
        ⟨"v1alpha1", some ⟨"join", none⟩,
          some ⟨Machinery.testClusterConfig.ControlPlane, some ⟨true, []⟩⟩⟩
        ⟨false, "runtimeMode(false)"⟩ ⟨true, false⟩
      = ([], none) := by
  decide

example :
    Machinery.validate
        ⟨"v1alpha1", some ⟨"join", none⟩,
          some ⟨Machinery.testClusterConfig.ControlPlane, some ⟨false, []⟩⟩⟩
        ⟨false, "runtimeMode(false)"⟩ ⟨true, false⟩
      = ([], none) := by
  decide

example :
    Machinery.validate
        ⟨"v1alpha1", some ⟨"join", none⟩,
          some ⟨Machinery.testClusterConfig.ControlPlane,
            some ⟨false, ["https://www.example.com/manifest1.yaml",
              "https://www.example.com/manifest2.yaml"]⟩⟩⟩
        ⟨false, "runtimeMode(false)"⟩ ⟨true, false⟩
      = ([], some "1 error occurred:\n\t* external cloud provider is disabled, but manifests are provided\n\n") := by
  decide

example :
    Machinery.validate
        ⟨"v1alpha1", some ⟨"join", none⟩,
          some ⟨Machinery.testClusterConfig.ControlPlane,
            some ⟨true, ["/manifest.yaml"]⟩⟩⟩
        ⟨false, "runtimeMode(false)"⟩ ⟨true, false⟩
      = ([], some "1 error occurred:\n\t* invalid external cloud provider manifest url \"/manifest.yaml\": hostname must not be blank\n\n") := by
  decide
